import Mathlib

/-!
Shallow embedding of the ZenFS core (zoned-block-device file system):
zone state machine, allocator, zone file extent bookkeeping and the GC
worker, translated from `fs/zbd_zenfs.cc` and `fs/io_zenfs.cc`.

Device I/O (ioctls, pread/pwrite, async contexts) is modelled by explicit
oracles or by the happy path where a claim only concerns the in-memory
state transitions; every such choice is noted at the definition it affects.
-/

namespace ZenFS

instance {ε α : Type} [DecidableEq ε] [DecidableEq α] :
    DecidableEq (Except ε α) := fun a b =>
  match a, b with
  | .ok x, .ok y =>
    if h : x = y then .isTrue (by rw [h])
    else .isFalse (fun hc => h (by injection hc))
  | .error x, .error y =>
    if h : x = y then .isTrue (by rw [h])
    else .isFalse (fun hc => h (by injection hc))
  | .ok _, .error _ => .isFalse (fun hc => Except.noConfusion hc)
  | .error _, .ok _ => .isFalse (fun hc => Except.noConfusion hc)

/-- `Env::WriteLifeTimeHint` from the RocksDB environment:
`WLTH_NOT_SET = 0, WLTH_NONE, WLTH_SHORT, WLTH_MEDIUM, WLTH_LONG,
WLTH_EXTREME`. -/
inductive WriteLifeTimeHint where
  | notSet
  | noneHint
  | shortHint
  | medium
  | long
  | extreme
deriving DecidableEq

/-- The numeric value of the C enum, used where the C code compares hints
with `>` or subtracts them. -/
def WriteLifeTimeHint.toNat : WriteLifeTimeHint → Nat
  | .notSet => 0
  | .noneHint => 1
  | .shortHint => 2
  | .medium => 3
  | .long => 4
  | .extreme => 5

/-- `LIFETIME_DIFF_NOT_GOOD` in `zbd_zenfs.cc`. -/
def lifetimeDiffNotGood : Nat := 100

/-- `LIFETIME_DIFF_MEH` in `zbd_zenfs.cc`. -/
def lifetimeDiffMeh : Nat := 2

/-- `GetLifeTimeDiff(zone_lifetime, file_lifetime)` from `zbd_zenfs.cc`:
the branch structure follows the C function line by line. -/
def getLifeTimeDiff (zone_lifetime file_lifetime : WriteLifeTimeHint) : Nat :=
  if file_lifetime = .notSet ∨ file_lifetime = .noneHint then
    if file_lifetime = zone_lifetime then 0 else lifetimeDiffNotGood
  else if zone_lifetime = file_lifetime then lifetimeDiffMeh
  else if file_lifetime.toNat < zone_lifetime.toNat then
    zone_lifetime.toNat - file_lifetime.toNat
  else lifetimeDiffNotGood

/-- The lifetime-difference function as the spec words it (§4.B of the
spec): written independently of `getLifeTimeDiff` to compare the two. -/
def specLifeTimeDiff (zone_lt file_lt : WriteLifeTimeHint) : Nat :=
  if file_lt = .notSet ∨ file_lt = .noneHint then
    if zone_lt = file_lt then 0 else lifetimeDiffNotGood
  else if zone_lt = file_lt then lifetimeDiffMeh
  else if zone_lt.toNat > file_lt.toNat then zone_lt.toNat - file_lt.toNat
  else lifetimeDiffNotGood

/-- One device zone (`class Zone` in `zbd_zenfs.h`): byte offsets and
counters are natural numbers; the in-flight async context is modelled by
the oracles of the operations that touch it. -/
structure Zone where
  start : Nat
  maxCapacity : Nat
  capacity : Nat
  wp : Nat
  usedCapacity : Nat
  lifetime : WriteLifeTimeHint
  openForWrite : Bool
  bgProcessing : Bool
deriving DecidableEq

/-- `Zone::IsUsed`: `(used_capacity_ > 0) || open_for_write_`. -/
def Zone.IsUsed (z : Zone) : Bool := 0 < z.usedCapacity || z.openForWrite

/-- `Zone::IsFull`: `capacity_ == 0`. -/
def Zone.IsFull (z : Zone) : Bool := z.capacity == 0

/-- `Zone::IsEmpty`: `wp_ == start_`. -/
def Zone.IsEmpty (z : Zone) : Bool := z.wp == z.start

/-! ## ZoneExtent and its wire codec (`io_zenfs.cc`) -/

/-- `ZoneExtent`: `(start_, length_, zone_)`; the zone reference is an
index into the device's I/O-zone list. -/
structure ZoneExtent where
  start : Nat
  length : Nat
  zone : Nat
deriving DecidableEq

/-- `PutFixed32`: little-endian bytes of a `u32`. -/
def putFixed32 (v : Nat) : List Nat :=
  [v % 256, v / 256 % 256, v / 65536 % 256, v / 16777216 % 256]

/-- `PutFixed64`: little-endian bytes of a `u64`. -/
def putFixed64 (v : Nat) : List Nat :=
  [v % 256, v / 256 % 256, v / 65536 % 256, v / 16777216 % 256,
   v / 4294967296 % 256, v / 1099511627776 % 256,
   v / 281474976710656 % 256, v / 72057594037927936 % 256]

/-- `GetFixed32` / `GetFixed64`: fold little-endian bytes back into a
number. -/
def getFixedLE (bytes : List Nat) : Nat :=
  bytes.foldr (fun b acc => b + 256 * acc) 0

/-- `ZoneExtent::EncodeTo`: `PutFixed64(start_)` then
`PutFixed32(length_)`. -/
def ZoneExtent.EncodeTo (e : ZoneExtent) : List Nat :=
  putFixed64 e.start ++ putFixed32 e.length

/-- Decode failure: `Status::Corruption` is the only error the extent
decoder produces. -/
inductive DecodeErr where
  | corruption
deriving DecidableEq

/-- `ZoneExtent::DecodeFrom`: rejects any input whose size differs from
`sizeof(start_) + sizeof(length_) = 12`, else reads the two fields.  The
C version mutates `start_`/`length_` of an extent whose zone pointer
stays null, so the model returns the decoded pair. -/
def zoneExtentDecodeFrom (input : List Nat) : Except DecodeErr (Nat × Nat) :=
  if input.length = 12 then
    .ok (getFixedLE (input.take 8), getFixedLE (input.drop 8))
  else .error .corruption

/-! ## Zone operations (`zbd_zenfs.cc`) -/

/-- Outcome of one `pwrite` call as seen by `Zone::Append`: either a
device error (`ret < 0`) or `n + 1` bytes written (`pwrite` on a block
device returns a positive count for a positive request). -/
inductive PwriteRes where
  | devErr
  | wrote (n : Nat)
deriving DecidableEq

/-- Status values surfaced by `Zone::Append`. -/
inductive AppendStatus where
  | ok
  | noSpace
  | ioError
deriving DecidableEq

/-- The `while (left)` loop of `Zone::Append`: each successful `pwrite`
advances `wp_`, decreases `capacity_` and decreases `left` by the bytes
written.  An exhausted oracle stands for a device that stops answering
and is reported as an I/O error like any failed `pwrite`. -/
def zoneWriteLoop : Nat → Nat → Nat → List PwriteRes → AppendStatus × Nat × Nat
  | wp, cap, 0, _ => (.ok, wp, cap)
  | wp, cap, _ + 1, [] => (.ioError, wp, cap)
  | wp, cap, _ + 1, .devErr :: _ => (.ioError, wp, cap)
  | wp, cap, left + 1, .wrote n :: rest =>
      zoneWriteLoop (wp + (n + 1)) (cap - (n + 1)) (left + 1 - (n + 1)) rest

/-- `Zone::Append(data, size)`: returns `NoSpace` before touching the
zone when `capacity_ < size`, then drains the outstanding async write
(`Sync()`, its outcome given by `syncOk`), then loops over `pwrite`
results.  The returned zone carries whatever `wp_`/`capacity_` mutations
happened before a failure, exactly as the C object would. -/
def Zone.Append (z : Zone) (size : Nat) (syncOk : Bool)
    (pw : List PwriteRes) : AppendStatus × Zone :=
  if z.capacity < size then (.noSpace, z)
  else if !syncOk then (.ioError, z)
  else
    let r := zoneWriteLoop z.wp z.capacity size pw
    (r.1, { z with wp := r.2.1, capacity := r.2.2 })

/-- An oracle that lets `Zone::Append` run to completion: every entry is
a successful write and the written counts cover `left` bytes exactly
without overshooting. -/
def oracleCovers : Nat → List PwriteRes → Bool
  | 0, _ => true
  | _ + 1, [] => false
  | _ + 1, .devErr :: _ => false
  | left + 1, .wrote n :: rest =>
      decide (n + 1 ≤ left + 1) && oracleCovers (left + 1 - (n + 1)) rest

/-- `Zone::Finish()`: asserts `!open_for_write_`, issues the finish
ioctl (modelled as succeeding) and sets `capacity_ := 0`,
`wp_ := start_ + zone_sz` where `zone_sz` is the device zone size, not
the zone's `max_capacity_`. -/
def Zone.Finish (z : Zone) (zoneSz : Nat) : Option Zone :=
  if z.openForWrite then none
  else some { z with capacity := 0, wp := z.start + zoneSz }

/-- Failure of the `assert(!IsUsed())` at the top of `Zone::Reset`. -/
inductive ResetErr where
  | assertUsed
deriving DecidableEq

/-- `Zone::Reset()`: the `assert(!IsUsed())` guards entry (modelled as
an error when violated, as a debug build aborts there); the reset and
report ioctls are modelled as succeeding on a zone that stays online, so
`max_capacity_ = capacity_ := reported capacity` and `wp_ := start_`,
`lifetime_ := NOT_SET`. -/
def Zone.Reset (z : Zone) : Except ResetErr Zone :=
  if z.IsUsed then .error .assertUsed
  else .ok { z with capacity := z.maxCapacity, wp := z.start,
                    lifetime := .notSet }

/-- `Zone::Close()` as called from `Zone::CloseWR()`: clears
`open_for_write_`; the device close ioctl (issued only when the zone is
neither empty nor full) does not change the modelled state. -/
def Zone.CloseWR (z : Zone) : Zone := { z with openForWrite := false }

/-! ## ZonedBlockDevice state and the allocator (`zbd_zenfs.cc`) -/

/-- A job enqueued on the data background worker by `BgFinishDataZone`
or `BgResetDataZone`; the model records the queue, it does not run the
jobs (they execute asynchronously in the C code). -/
inductive BgJob where
  | finish (zone : Nat)
  | reset (zone : Nat)
deriving DecidableEq

/-- The zone index a background job targets. -/
def BgJob.zone : BgJob → Nat
  | .finish z => z
  | .reset z => z

/-- The allocator-relevant state of `ZonedBlockDevice`: the data-pool
zone list (`io_zones_`, zones referenced by index), the active-zone slot
table (`active_zones_`), the active counter and the data worker's job
queue.  `finishThreshold` is the `finish_threshold_` percentage. -/
structure DevState where
  ioZones : List Zone
  activeSlots : List (Option Nat)
  activeIoZones : Nat
  jobs : List BgJob
  finishThreshold : Nat
deriving DecidableEq

/-- Look a zone up by its index in `io_zones_`. -/
def DevState.zone? (st : DevState) (zid : Nat) : Option Zone :=
  st.ioZones[zid]?

/-- Replace the zone at index `zid` (a C pointer write through
`io_zones_[zid]`). -/
def DevState.setZone (st : DevState) (zid : Nat) (z : Zone) : DevState :=
  { st with ioZones := st.ioZones.set zid z }

/-- `BgFinishDataZone`: submit a finish job for the zone to the data
worker.  The submitted closure also clears the slot and decrements the
active counter, but only when it later runs; at submission time only the
queue grows. -/
def DevState.bgFinishDataZone (st : DevState) (zid : Nat) : DevState :=
  { st with jobs := st.jobs ++ [.finish zid] }

/-- `BgResetDataZone`: submit a reset job for the zone. -/
def DevState.bgResetDataZone (st : DevState) (zid : Nat) : DevState :=
  { st with jobs := st.jobs ++ [.reset zid] }

/-- One slot inspection of `TriggerBgFinishAndReset`: skip empty slots,
zones already under background processing, zones open for write, Empty
zones and Full-and-Used zones; then enqueue a reset when the zone is
unused, or a finish when its remaining capacity is below the finish
threshold. -/
def triggerBgVisit (st : DevState) (slot : Option Nat) : DevState :=
  match slot with
  | none => st
  | some zid =>
    match st.zone? zid with
    | none => st
    | some z =>
      if z.bgProcessing then st
      else if z.openForWrite || z.IsEmpty || (z.IsFull && z.IsUsed) then st
      else if !z.IsUsed then
        (st.setZone zid { z with bgProcessing := true }).bgResetDataZone zid
      else if z.capacity < z.maxCapacity * st.finishThreshold / 100 then
        (st.setZone zid { z with bgProcessing := true }).bgFinishDataZone zid
      else st

/-- `TriggerBgFinishAndReset`: the CAS guard always succeeds in this
single-threaded model, so the function is the scan over every slot. -/
def triggerBgFinishAndReset (st : DevState) : DevState :=
  st.activeSlots.foldl triggerBgVisit st

/-- The first scan of `GetActiveZone`'s empty-slot branch: among
data-pool zones that are not open for write, have `used_capacity_ > 0`
and are not full, track the zone of minimum lifetime diff; `diff <=
best_diff` lets a later zone displace an earlier tie, and `best_diff`
starts at `LIFETIME_DIFF_NOT_GOOD`.  Arguments: current index, remaining
zones, accumulator `(best index, best diff)`. -/
def bestDiffScanAux (lt : WriteLifeTimeHint) :
    Nat → List Zone → Option Nat × Nat → Option Nat × Nat
  | _, [], acc => acc
  | i, z :: rest, (bi, bd) =>
    if !z.openForWrite && (0 < z.usedCapacity) && !z.IsFull then
      let d := getLifeTimeDiff z.lifetime lt
      if d ≤ bd then bestDiffScanAux lt (i + 1) rest (some i, d)
      else bestDiffScanAux lt (i + 1) rest (bi, bd)
    else bestDiffScanAux lt (i + 1) rest (bi, bd)

/-- The fallback scan of `GetActiveZone`'s empty-slot branch: every zone
that is not open for write and is Empty gets `lifetime_ :=
file_lifetime` assigned, and `allocated_zone` ends up as the last such
zone.  Returns the updated zone list and the index of that last
eligible zone. -/
def emptyZoneScanAux (lt : WriteLifeTimeHint) :
    List Zone → List Zone × Option Nat
  | [] => ([], none)
  | z :: rest =>
    let r := emptyZoneScanAux lt rest
    if !z.openForWrite && z.IsEmpty then
      ({ z with lifetime := lt } :: r.1,
       match r.2 with
       | some j => some (j + 1)
       | none => some 0)
    else (z :: r.1, r.2.map (· + 1))

/-- The full `io_zones_` scan of the empty-slot branch: best-diff scan,
then, when the best diff is still `>= LIFETIME_DIFF_NOT_GOOD`, the
empty-zone fallback; a fallback hit overrides the first scan's pick,
otherwise the first scan's pick (possibly a `NOT_GOOD` one) stands. -/
def ioZoneScan (zones : List Zone) (lt : WriteLifeTimeHint) :
    List Zone × Option Nat :=
  let r := bestDiffScanAux lt 0 zones (none, lifetimeDiffNotGood)
  if lifetimeDiffNotGood ≤ r.2 then
    let f := emptyZoneScanAux lt zones
    (f.1, match f.2 with
          | some j => some j
          | none => r.1)
  else (zones, r.1)

/-- The `full_zone` preamble of `GetActiveZone`: when the caller hands
in its just-full zone and that zone is not already under background
processing and still occupies a slot, mark it not open for write, set
`bg_processing` and enqueue a background finish. -/
def markFullZone (fz : Nat) (st : DevState) : DevState :=
  match st.zone? fz with
  | none => st
  | some z =>
    if z.bgProcessing then st
    else if (some fz) ∈ st.activeSlots then
      (st.setZone fz { z with openForWrite := false, bgProcessing := true
                      }).bgFinishDataZone fz
    else st

/-- The empty-slot branch of `GetActiveZone`'s loop: run the
`io_zones_` scan; on a hit mark the zone open-for-write, give it the
file's lifetime, record it in slot `i` and bump `active_io_zones_`; and
(for a non-WAL scan, `start != 0`) run `TriggerBgFinishAndReset` whether
or not the scan hit. -/
def emptySlotAlloc (lt : WriteLifeTimeHint) (start i : Nat)
    (st : DevState) : Option Nat × DevState :=
  let r := ioZoneScan st.ioZones lt
  let st1 := { st with ioZones := r.1 }
  match r.2 with
  | some zid =>
    match st1.zone? zid with
    | none => (none, if start ≠ 0 then triggerBgFinishAndReset st1 else st1)
    | some z =>
      let st2 := { st1.setZone zid
                    { z with openForWrite := true, lifetime := lt } with
                   activeSlots := st1.activeSlots.set i (some zid),
                   activeIoZones := st1.activeIoZones + 1 }
      (some zid, if start ≠ 0 then triggerBgFinishAndReset st2 else st2)
  | none => (none, if start ≠ 0 then triggerBgFinishAndReset st1 else st1)

/-- The slot loop of `GetActiveZone`, scanning indices from `i` upward:
a referenced slot is reused when its zone is neither under background
processing nor open for write; an empty slot runs `emptySlotAlloc` and
continues with the next slot when it found nothing.  `fuel` bounds the
loop by the slot count. -/
def slotScanAux (lt : WriteLifeTimeHint) (start : Nat) :
    Nat → Nat → DevState → Option Nat × DevState
  | 0, _, st => (none, st)
  | fuel + 1, i, st =>
    if i < st.activeSlots.length then
      match st.activeSlots[i]? with
      | some (some zid) =>
        match st.zone? zid with
        | none => slotScanAux lt start fuel (i + 1) st
        | some z =>
          if z.bgProcessing then slotScanAux lt start fuel (i + 1) st
          else if !z.openForWrite then
            (some zid, st.setZone zid { z with openForWrite := true })
          else slotScanAux lt start fuel (i + 1) st
      | _ =>
        match emptySlotAlloc lt start i st with
        | (some zid, st2) => (some zid, st2)
        | (none, st1) => slotScanAux lt start fuel (i + 1) st1
    else (none, st)

/-- `ZonedBlockDevice::GetActiveZone(start, file_lifetime, full_zone,
ret)`: the `full_zone` preamble followed by the slot loop; returns the
selected zone (already marked `open_for_write_`) or `none` when the scan
found nothing. -/
def getActiveZone (start : Nat) (lt : WriteLifeTimeHint)
    (full : Option Nat) (st : DevState) : Option Nat × DevState :=
  let st0 := match full with
             | some fz => markFullZone fz st
             | none => st
  slotScanAux lt start st0.activeSlots.length start st0

/-- `ZonedBlockDevice::AllocateZone(file_lifetime, is_wal, full_zone)`:
WAL callers scan from slot 0, others from slot 2 (after yielding to WAL
traffic, invisible in the single-threaded model).  The C `do/while`
retries `GetActiveZone` until it succeeds; the model performs one
attempt, so a `none` result stands for the allocator still spinning. -/
def allocateZone (lt : WriteLifeTimeHint) (is_wal : Bool)
    (full : Option Nat) (st : DevState) : Option Nat × DevState :=
  getActiveZone (cond is_wal 0 2) lt full st

/-! ## ZoneFile (`io_zenfs.cc`) -/

/-- The write-side state of a `ZoneFile`: `fileSize`, the ordered extent
list, the active zone (an `io_zones_` index), `extent_start_`,
`extent_filepos_` and the lifetime hint. -/
structure ZoneFile where
  fileSize : Nat
  extents : List ZoneExtent
  activeZone : Option Nat
  extentStart : Nat
  extentFilepos : Nat
  lifetime : WriteLifeTimeHint
deriving DecidableEq

/-- `ZoneFile::PushExtent()`: with an active zone and
`fileSize > extent_filepos_`, append the pending extent
`(extent_start_, fileSize - extent_filepos_, active zone)`, add its
length to the zone's `used_capacity_`, and advance `extent_start_` to
the zone's write pointer and `extent_filepos_` to `fileSize`. -/
def ZoneFile.PushExtent (f : ZoneFile) (st : DevState) :
    ZoneFile × DevState :=
  match f.activeZone with
  | none => (f, st)
  | some zid =>
    let length := f.fileSize - f.extentFilepos
    if length = 0 then (f, st)
    else
      match st.zone? zid with
      | none => (f, st)
      | some z =>
        ({ f with
            extents := f.extents ++ [⟨f.extentStart, length, zid⟩],
            extentStart := z.wp,
            extentFilepos := f.fileSize },
         st.setZone zid { z with usedCapacity := z.usedCapacity + length })

/-- The `capacity_ == 0` branch of the `while (left)` loop in
`ZoneFile::Append`: push the pending extent, `CloseWR` the zone, then
request the next zone.  The call in the source is
`zbd_->AllocateZone(lifetime_)`, so `is_wal` and `full_zone` take their
declaration defaults (`false` and null — a C++ default argument cannot
name the caller's zone).  Returns whether allocation succeeded together
with the mutated file and device state, which persist even on failure as
the C members do. -/
def adoptAllocation (f : ZoneFile) (a : Option Nat × DevState) :
    Bool × ZoneFile × DevState :=
  match a.1 with
  | none => (false, { f with activeZone := none }, a.2)
  | some nz =>
    match a.2.zone? nz with
    | none => (false, { f with activeZone := none }, a.2)
    | some znew =>
      (true, { f with activeZone := some nz, extentStart := znew.wp,
                      extentFilepos := f.fileSize }, a.2)

/-- See `adoptAllocation` just above: pending extent, `CloseWR`, then
`AllocateZone(lifetime_)` with defaulted `is_wal`/`full_zone`. -/
def rollActiveZone (f : ZoneFile) (st : DevState) (zid : Nat) :
    Bool × ZoneFile × DevState :=
  let p := f.PushExtent st
  let st1 := match p.2.zone? zid with
             | none => p.2
             | some z => p.2.setZone zid z.CloseWR
  adoptAllocation p.1 (allocateZone p.1.lifetime false none st1)

/-- Outcome of `ZoneFile::Append`. -/
inductive ZFStatus where
  | ok
  | noSpace
  | fuelOut
deriving DecidableEq

/-- The `while (left)` loop of `ZoneFile::Append`: on a full active zone
roll to the next one, otherwise write `min(left, capacity_)` bytes into
the zone (the device write is modelled as succeeding) and grow
`fileSize`.  The first argument is loop fuel; exhausting it models the C
code iterating further than the caller's bound (for example spinning on
zero-capacity zones). -/
def zoneFileAppendLoop :
    Nat → Nat → ZoneFile → DevState → ZFStatus × ZoneFile × DevState
  | _, 0, f, st => (.ok, f, st)
  | 0, _ + 1, f, st => (.fuelOut, f, st)
  | fuel + 1, left + 1, f, st =>
    match f.activeZone with
    | none => (.noSpace, f, st)
    | some zid =>
      match st.zone? zid with
      | none => (.noSpace, f, st)
      | some z =>
        if z.capacity = 0 then
          let r := rollActiveZone f st zid
          if r.1 then zoneFileAppendLoop fuel (left + 1) r.2.1 r.2.2
          else (.noSpace, r.2.1, r.2.2)
        else
          let wr := min (left + 1) z.capacity
          let st' := st.setZone zid
            { z with wp := z.wp + wr, capacity := z.capacity - wr }
          let f' := { f with fileSize := f.fileSize + wr }
          zoneFileAppendLoop fuel (left + 1 - wr) f' st'

/-- `ZoneFile::Append(data, data_size, valid_size)`: allocate an active
zone when there is none (recording `extent_start_` and
`extent_filepos_`), run the write loop, then — only when the loop ran to
completion, since the C code returns early on failure — shrink
`fileSize` by the padding `data_size - valid_size`. -/
def ZoneFile.Append (f : ZoneFile) (st : DevState)
    (dataSize validSize fuel : Nat) : ZFStatus × ZoneFile × DevState :=
  let fst :=
    match f.activeZone with
    | some _ => (some f, st)
    | none =>
      let a := allocateZone f.lifetime false none st
      match a.1 with
      | none => (none, a.2)
      | some nz =>
        match a.2.zone? nz with
        | none => (none, a.2)
        | some z =>
          (some { f with activeZone := some nz, extentStart := z.wp,
                         extentFilepos := f.fileSize }, a.2)
  match fst.1 with
  | none => (.noSpace, f, fst.2)
  | some f0 =>
    let r := zoneFileAppendLoop fuel dataSize f0 fst.2
    match r.1 with
    | .ok =>
      (.ok, { r.2.1 with
                fileSize := r.2.1.fileSize - (dataSize - validSize) },
       r.2.2)
    | s => (s, r.2.1, r.2.2)

/-! ## GC worker (`ZenFSGCWorker`, `io_zenfs.cc`) -/

/-- The comparator `ext1->length_ > ext2->length_` handed to
`std::sort`: insert an extent in front of the first strictly shorter
one. -/
def insertByLenDesc (e : ZoneExtent) : List ZoneExtent → List ZoneExtent
  | [] => [e]
  | x :: xs =>
    if x.length < e.length then e :: x :: xs else x :: insertByLenDesc e xs

/-- Sort the extent list by decreasing length, as
`MoveValidDataToNewDestZone` does before relocating. -/
def sortByLenDesc (l : List ZoneExtent) : List ZoneExtent :=
  l.foldr insertByLenDesc []

/-- Failures of the GC relocation loop.  `outOfDstZones` marks the
dereference of an exhausted destination cursor, which in the C code is
undefined behaviour; `readAcrossZone` is `ReadExtent`'s
`IOError("Read across zone")`. -/
inductive GCErr where
  | outOfDstZones
  | readAcrossZone
  | badZoneRef
  | fuelOut
deriving DecidableEq

/-- The address check of `ZenFSGCWorker::ReadExtent` on the source zone:
a read position at or past `wp_` is treated as EOF (the buffer is
cleared and OK returned), a read crossing `start_ + max_capacity_`
fails, anything else succeeds (`pread` is modelled as succeeding). -/
def readExtentCheck (zones : List Zone) (e : ZoneExtent) :
    Except GCErr Unit :=
  match zones[e.zone]? with
  | none => .error .badZoneRef
  | some src =>
    if src.wp ≤ e.start then .ok ()
    else if src.start + src.maxCapacity < e.start + e.length then
      .error .readAcrossZone
    else .ok ()

/-- The relocation loop of `ZenFSGCWorker::MoveValidDataToNewDestZone`
over the sorted extent list and the destination-zone cursor: read the
extent from its source zone (skipped when `dont_read` is set after a
`NoSpace`), append it to the current destination (`Zone::Append`
modelled by its capacity check and `wp_`/`capacity_` bookkeeping), and
on success rewrite the extent's `start_` and `zone_` to the destination.
No `used_capacity_` is touched anywhere in the loop, exactly as in the
source.  The first argument is loop fuel;
`extent_list.length + dst_zone_list.length` always suffices, since every
iteration consumes an extent or a destination. -/
def gcMoveLoop : Nat → Bool → List ZoneExtent → List Nat → List Zone →
    Except GCErr (List ZoneExtent × List Zone)
  | _, _, [], _, zones => .ok ([], zones)
  | 0, _, _ :: _, _, _ => .error .fuelOut
  | fuel + 1, dontRead, e :: rest, dsts, zones =>
    match dsts with
    | [] => .error .outOfDstZones
    | d :: drest =>
      match (if dontRead then .ok () else readExtentCheck zones e :
             Except GCErr Unit) with
      | .error err => .error err
      | .ok _ =>
        match zones[d]? with
        | none => .error .badZoneRef
        | some zdst =>
          if zdst.capacity < e.length then
            gcMoveLoop fuel true (e :: rest) drest zones
          else
            let zones' := zones.set d
              { zdst with wp := zdst.wp + e.length,
                          capacity := zdst.capacity - e.length }
            match gcMoveLoop fuel false rest (d :: drest) zones' with
            | .error err => .error err
            | .ok r => .ok ({ e with start := zdst.wp, zone := d } :: r.1,
                            r.2)

/-- `ZenFSGCWorker::MoveValidDataToNewDestZone`: sort the collected
extents by decreasing length, then relocate them across the destination
list.  An empty extent list indexes `extent_list[0]` out of bounds in
the C code, modelled by returning the input unchanged. -/
def moveValidDataToNewDestZone (exts : List ZoneExtent) (dsts : List Nat)
    (zones : List Zone) : Except GCErr (List ZoneExtent × List Zone) :=
  gcMoveLoop (exts.length + dsts.length) false (sortByLenDesc exts) dsts
    zones

/-- `ZenFSGCWorker::ZoneResetToReclaim`: call `Zone::Reset` on every
zone of the merge-zone list, ignoring failures (the loop continues
either way); the per-zone outcomes are collected so that an
`assert(!IsUsed())` violation is observable. -/
def zoneResetToReclaim (mergeList : List Nat) (zones : List Zone) :
    List (Except ResetErr Unit) × List Zone :=
  match mergeList with
  | [] => ([], zones)
  | zid :: rest =>
    match zones[zid]? with
    | none =>
      let r := zoneResetToReclaim rest zones
      (.error .assertUsed :: r.1, r.2)
    | some z =>
      match z.Reset with
      | .error e =>
        let r := zoneResetToReclaim rest zones
        (.error e :: r.1, r.2)
      | .ok z' =>
        let r := zoneResetToReclaim rest (zones.set zid z')
        (.ok () :: r.1, r.2)

/-- The sum of the lengths of the extents of all live files that point
at zone `zid` — the quantity the spec equates with the zone's
`used_capacity` (spec §8, invariant 2). -/
def extentLengthSum (files : List (List ZoneExtent)) (zid : Nat) : Nat :=
  (files.map (fun exts =>
    (exts.filter (fun e => e.zone == zid)).foldr
      (fun e acc => e.length + acc) 0)).sum

/-! ## File adapters (`io_zenfs.cc`) -/

/-- Status values of `ZonedSequentialFile::Skip`. -/
inductive SkipStatus where
  | ok
  | invalidArgument
deriving DecidableEq

/-- The read-side state of a `ZonedSequentialFile`: the read position
`rp` and the backing file's size (`zoneFile_->GetFileSize()`). -/
structure ZonedSequentialFile where
  rp : Nat
  fileSize : Nat
deriving DecidableEq

/-- `ZonedSequentialFile::Skip(n)`: rejects with `InvalidArgument` when
`rp + n >= GetFileSize()`, otherwise advances `rp` by `n`. -/
def ZonedSequentialFile.Skip (f : ZonedSequentialFile) (n : Nat) :
    SkipStatus × ZonedSequentialFile :=
  if f.fileSize ≤ f.rp + n then (.invalidArgument, f)
  else (.ok, { f with rp := f.rp + n })

/-- The state the `ZonedWritableFile` constructor initialises. -/
structure ZonedWritableFile where
  wp : Nat
  buffered : Bool
  bufferPos : Nat
deriving DecidableEq

/-- The `ZonedWritableFile` constructor: `wp = zoneFile->GetFileSize()`
followed by `assert(wp == 0)`; a violated assertion (a debug build
aborts there) is modelled as `none`.  The bounce-buffer allocation does
not affect the modelled state. -/
def mkZonedWritableFile (zoneFileSize : Nat) (buffered : Bool) :
    Option ZonedWritableFile :=
  let wp := zoneFileSize
  if wp = 0 then some { wp := wp, buffered := buffered, bufferPos := 0 }
  else none

/-! ## Claim theorems -/

/-- C5: encoding a `ZoneExtent` produces exactly 12 bytes (little-endian
u64 start, then u32 length), decoding that encoding returns the extent's
start and length unchanged, and decoding any input whose size is not 12
bytes fails with Corruption. -/
theorem c5_extent_codec_roundtrip (e : ZoneExtent)
    (hs : e.start < 2 ^ 64) (hl : e.length < 2 ^ 32) :
    e.EncodeTo.length = 12 ∧
    zoneExtentDecodeFrom e.EncodeTo = .ok (e.start, e.length) ∧
    ∀ input : List Nat, input.length ≠ 12 →
      zoneExtentDecodeFrom input = .error .corruption := by
  refine ⟨rfl, ?_, ?_⟩
  · simp only [ZoneExtent.EncodeTo, zoneExtentDecodeFrom, putFixed64,
      putFixed32, getFixedLE]
    norm_num [List.take, List.drop, List.foldr]
    constructor <;> omega
  · intro input h
    simp [zoneExtentDecodeFrom, h]

/-- Witness for C5 at a concrete extent. -/
theorem c5_extent_codec_roundtrip_witness :
    zoneExtentDecodeFrom (ZoneExtent.EncodeTo ⟨123456789012345, 305419896, 7⟩)
      = .ok (123456789012345, 305419896) :=
  (c5_extent_codec_roundtrip ⟨123456789012345, 305419896, 7⟩ (by decide)
    (by decide)).2.1

/-- C6: `GetLifeTimeDiff` agrees with the spec's diff function on every
pair of lifetime hints, with `NOT_GOOD = 100` and `MEH = 2`. -/
theorem c6_lifetime_diff_matches_spec :
    (∀ z f : WriteLifeTimeHint,
        getLifeTimeDiff z f = specLifeTimeDiff z f) ∧
    lifetimeDiffNotGood = 100 ∧ lifetimeDiffMeh = 2 := by
  refine ⟨?_, rfl, rfl⟩
  intro z f
  cases z <;> cases f <;> rfl

/-- C1 (failing input): GC relocation of the single live 4096-byte
extent of Full source zone 0 into empty destination zone 1 succeeds and
repoints the extent, after which no live extent references zone 0, yet
zone 0's `used_capacity` is still 4096 (the claim requires 0) and
zone 1's is 0 (not 4096): `MoveValidDataToNewDestZone` never updates
`used_capacity_`. -/
theorem c1_gc_relocation_leaves_used_capacity :
    (moveValidDataToNewDestZone [⟨0, 4096, 0⟩] [1]
        [⟨0, 8192, 0, 8192, 4096, .shortHint, false, false⟩,
         ⟨8192, 8192, 8192, 8192, 0, .notSet, false, false⟩]).toOption.map
      (fun r => (r.1, extentLengthSum [r.1] 0,
                 r.2.map Zone.usedCapacity)) =
    some ([⟨8192, 4096, 1⟩], 0, [4096, 0]) := by decide

/-- C2 (failing input): in the same GC scenario,
`ZoneResetToReclaim` over the merge-zone list holding source zone 0
invokes `Zone::Reset` on a zone whose `used_capacity` is 4096, violating
the `assert(!IsUsed())` at the top of `Reset`. -/
theorem c2_gc_reset_violates_assert :
    (moveValidDataToNewDestZone [⟨0, 4096, 0⟩] [1]
        [⟨0, 8192, 0, 8192, 4096, .shortHint, false, false⟩,
         ⟨8192, 8192, 8192, 8192, 0, .notSet, false, false⟩]).toOption.map
      (fun r => ((zoneResetToReclaim [0] r.2).1,
                 (r.2[0]?).map Zone.usedCapacity)) =
    some ([.error .assertUsed], some 4096) := by decide

/-- C8 (counterexample): skipping exactly to end of file (`rp + n =
file_size`, not past it) is rejected with `InvalidArgument`, although
the claim requires failure only when `rp + n > file_size`. -/
theorem c8_skip_to_eof_rejected :
    (ZonedSequentialFile.Skip ⟨0, 4096⟩ 4096).1 = .invalidArgument ∧
    ¬(0 + 4096 > 4096) := by decide

/-- C8 (amended): `Skip(n)` fails with `InvalidArgument` exactly when
`rp + n >= file_size`, leaving the read position unchanged; when
`rp + n < file_size` it returns OK and advances `rp` by `n`. -/
theorem c8_skip_spec (f : ZonedSequentialFile) (n : Nat) :
    (f.fileSize ≤ f.rp + n →
      ZonedSequentialFile.Skip f n = (.invalidArgument, f)) ∧
    (f.rp + n < f.fileSize →
      ZonedSequentialFile.Skip f n = (.ok, { f with rp := f.rp + n })) := by
  constructor
  · intro h
    simp [ZonedSequentialFile.Skip, h]
  · intro h
    rw [ZonedSequentialFile.Skip, if_neg (by omega)]

/-- Witness for C8 (amended) at a concrete file state. -/
theorem c8_skip_spec_witness :
    ZonedSequentialFile.Skip ⟨0, 4096⟩ 100 = (.ok, ⟨100, 4096⟩) :=
  (c8_skip_spec ⟨0, 4096⟩ 100).2 (by decide)

/-- C9 (counterexample): on a device whose zone size (16384) exceeds the
zone's `max_capacity_` (8192), a successful `Finish` leaves
`wp = start + zone_size = 16384`, not `start + max_capacity = 8192` as
the claim states. -/
theorem c9_finish_wp_uses_zone_size :
    Zone.Finish ⟨0, 8192, 4096, 4096, 0, .notSet, false, false⟩ 16384 =
      some ⟨0, 8192, 0, 16384, 0, .notSet, false, false⟩ ∧
    (16384 : Nat) ≠ 0 + 8192 := by decide

/-- C9 (amended): after a successful `Finish` on a zone that is not
open for write, `capacity = 0` and `wp = start + zone_size` (the device
zone size, which need not equal `max_capacity`). -/
theorem c9_finish_spec (z : Zone) (zoneSz : Nat)
    (h : z.openForWrite = false) :
    Zone.Finish z zoneSz =
      some { z with capacity := 0, wp := z.start + zoneSz } := by
  simp [Zone.Finish, h]

/-- Witness for C9 (amended) at a concrete zone. -/
theorem c9_finish_spec_witness :
    Zone.Finish ⟨0, 8192, 4096, 4096, 0, .notSet, false, false⟩ 8192 =
      some ⟨0, 8192, 0, 8192, 0, .notSet, false, false⟩ :=
  c9_finish_spec ⟨0, 8192, 4096, 4096, 0, .notSet, false, false⟩ 8192 rfl

/-- C10: the `ZonedWritableFile` constructor succeeds exactly when the
backing `ZoneFile`'s size is 0 (its `assert(wp == 0)` fires otherwise),
and the user-visible write pointer it initialises equals that size,
hence 0. -/
theorem c10_writable_requires_empty_file (sz : Nat) (buffered : Bool) :
    ((mkZonedWritableFile sz buffered).isSome ↔ sz = 0) ∧
    (∀ w, mkZonedWritableFile sz buffered = some w →
      w.wp = sz ∧ w.wp = 0) := by
  by_cases h : sz = 0 <;> simp [mkZonedWritableFile, h]

/-- When the pwrite oracle covers `left` bytes, the write loop ends
successfully having advanced `wp` by exactly `left` and decreased the
capacity by exactly `left`. -/
theorem zoneWriteLoop_covers (pw : List PwriteRes) :
    ∀ left wp cap, oracleCovers left pw = true →
      zoneWriteLoop wp cap left pw = (.ok, wp + left, cap - left) := by
  induction pw with
  | nil =>
    intro left wp cap h
    cases left with
    | zero => simp [zoneWriteLoop]
    | succ l => simp [oracleCovers] at h
  | cons r rest ih =>
    intro left wp cap h
    cases left with
    | zero => simp [zoneWriteLoop]
    | succ l =>
      cases r with
      | devErr => simp [oracleCovers] at h
      | wrote n =>
        simp only [oracleCovers, Bool.and_eq_true, decide_eq_true_eq] at h
        rw [zoneWriteLoop, ih _ _ _ h.2]
        have hn := h.1
        have e1 : wp + (n + 1) + (l + 1 - (n + 1)) = wp + (l + 1) := by omega
        have e2 : cap - (n + 1) - (l + 1 - (n + 1)) = cap - (l + 1) := by
          omega
        rw [e1, e2]

/-- C4: for a block-aligned size, `Zone::Append` fails with `NoSpace`
leaving `wp` and `capacity` unchanged when `capacity < size`; when the
capacity suffices, the async drain succeeds and the device answers the
positioned writes (the oracle covers `size` bytes), it returns OK with
`wp` advanced by exactly `size` and `capacity` decreased by exactly
`size`, so `capacity = max_capacity - (wp - start)` is preserved;
failure with `IOError` requires a device error (a failed sync or a
failed or missing pwrite answer). -/
theorem c4_zone_append_spec (z : Zone) (size blockSize : Nat)
    (syncOk : Bool) (pw : List PwriteRes)
    (_halign : size % blockSize = 0) :
    (z.capacity < size → Zone.Append z size syncOk pw = (.noSpace, z)) ∧
    (size ≤ z.capacity → syncOk = true → oracleCovers size pw = true →
      Zone.Append z size syncOk pw =
        (.ok, { z with wp := z.wp + size,
                       capacity := z.capacity - size }) ∧
      (z.start ≤ z.wp ∧ z.capacity = z.maxCapacity - (z.wp - z.start) →
        z.capacity - size =
          z.maxCapacity - ((z.wp + size) - z.start))) := by
  constructor
  · intro h
    simp [Zone.Append, h]
  · intro hcap hsync hcov
    constructor
    · rw [Zone.Append, if_neg (by omega)]
      simp [hsync, zoneWriteLoop_covers pw size z.wp z.capacity hcov]
    · rintro ⟨h1, h2⟩
      omega

/-- Witness for C4 at a concrete zone, size and oracle. -/
theorem c4_zone_append_spec_witness :
    Zone.Append ⟨0, 8192, 8192, 0, 0, .notSet, true, false⟩ 4096 true
      [.wrote 4095] =
    (.ok, ⟨0, 8192, 4096, 4096, 0, .notSet, true, false⟩) := by
  have h := ((c4_zone_append_spec ⟨0, 8192, 8192, 0, 0, .notSet, true, false⟩
    4096 4096 true [.wrote 4095] (by decide)).2 (by decide) rfl
    (by decide)).1
  simpa using h

/-- Positional effect of the empty-zone fallback scan: the zone at each
index is unchanged unless it is closed and Empty, in which case only its
lifetime is overwritten. -/
theorem emptyZoneScanAux_get? (lt : WriteLifeTimeHint) :
    ∀ (zones : List Zone) (i : Nat) (w : Zone), zones[i]? = some w →
      (emptyZoneScanAux lt zones).1[i]? =
        some (if !w.openForWrite && w.IsEmpty then { w with lifetime := lt }
              else w) := by
  intro zones
  induction zones with
  | nil => intro i w hw; simp at hw
  | cons z rest ih =>
    intro i w hw
    by_cases hc : (!z.openForWrite && z.IsEmpty) = true
    · cases i with
      | zero =>
        simp at hw
        subst hw
        simp [emptyZoneScanAux, hc]
      | succ i' =>
        simp at hw
        simpa [emptyZoneScanAux, hc] using ih i' w hw
    · cases i with
      | zero =>
        simp at hw
        subst hw
        simp [emptyZoneScanAux, hc, Bool.eq_false_iff.mpr hc]
      | succ i' =>
        simp at hw
        simpa [emptyZoneScanAux, hc] using ih i' w hw

/-- When the empty-zone fallback scan reports no pick, no scanned zone
was closed and Empty. -/
theorem emptyZoneScanAux_sel_none (lt : WriteLifeTimeHint) :
    ∀ zones : List Zone, (emptyZoneScanAux lt zones).2 = none →
      ∀ (k : Nat) (v : Zone), zones[k]? = some v →
        (!v.openForWrite && v.IsEmpty) = false := by
  intro zones
  induction zones with
  | nil => intro _ k v hv; simp at hv
  | cons z rest ih =>
    intro hnone k v hv
    by_cases hc : (!z.openForWrite && z.IsEmpty) = true
    · simp [emptyZoneScanAux, hc] at hnone
      rcases h2 : (emptyZoneScanAux lt rest).2 with _ | j <;>
        simp [h2] at hnone
    · simp [emptyZoneScanAux, hc] at hnone
      cases k with
      | zero =>
        simp at hv
        subst hv
        exact Bool.eq_false_iff.mpr hc
      | succ k' =>
        simp at hv
        exact ih hnone k' v hv

/-- The pick of the empty-zone fallback scan is a closed Empty zone and
is the last such zone in the list. -/
theorem emptyZoneScanAux_sel_some (lt : WriteLifeTimeHint) :
    ∀ (zones : List Zone) (j : Nat),
      (emptyZoneScanAux lt zones).2 = some j →
      (∃ v, zones[j]? = some v ∧ (!v.openForWrite && v.IsEmpty) = true) ∧
      ∀ (k : Nat) (v : Zone), j < k → zones[k]? = some v →
        (!v.openForWrite && v.IsEmpty) = false := by
  intro zones
  induction zones with
  | nil => intro j hj; simp [emptyZoneScanAux] at hj
  | cons z rest ih =>
    intro j hj
    by_cases hc : (!z.openForWrite && z.IsEmpty) = true
    · rcases h2 : (emptyZoneScanAux lt rest).2 with _ | j'
      · simp [emptyZoneScanAux, hc, h2] at hj
        subst hj
        refine ⟨⟨z, by simp, hc⟩, ?_⟩
        intro k v hk hv
        cases k with
        | zero => omega
        | succ k' =>
          simp at hv
          exact emptyZoneScanAux_sel_none lt rest h2 k' v hv
      · simp [emptyZoneScanAux, hc, h2] at hj
        subst hj
        rcases ih j' h2 with ⟨⟨v, hv, hvc⟩, hmax⟩
        refine ⟨⟨v, by simpa using hv, hvc⟩, ?_⟩
        intro k u hk hu
        cases k with
        | zero => omega
        | succ k' =>
          simp at hu
          exact hmax k' u (by omega) hu
    · rcases h2 : (emptyZoneScanAux lt rest).2 with _ | j'
      · simp [emptyZoneScanAux, hc, h2] at hj
      · simp [emptyZoneScanAux, hc, h2] at hj
        subst hj
        rcases ih j' h2 with ⟨⟨v, hv, hvc⟩, hmax⟩
        refine ⟨⟨v, by simpa using hv, hvc⟩, ?_⟩
        intro k u hk hu
        cases k with
        | zero => omega
        | succ k' =>
          simp at hu
          exact hmax k' u (by omega) hu

/-- C7 (counterexample): with two closed Empty data-pool zones of
lifetime MEDIUM and an empty slot table, a non-WAL allocation with file
lifetime SHORT selects zone 1 but also rewrites non-selected zone 0's
lifetime from MEDIUM to SHORT, although the claim says only the selected
zone's lifetime is assigned. -/
theorem c7_fallback_rewrites_nonselected :
    (getActiveZone 2 .shortHint none
        ⟨[⟨0, 8192, 8192, 0, 0, .medium, false, false⟩,
          ⟨8192, 8192, 8192, 8192, 0, .medium, false, false⟩],
         [none, none, none], 0, [], 0⟩).1 = some 1 ∧
    ((getActiveZone 2 .shortHint none
        ⟨[⟨0, 8192, 8192, 0, 0, .medium, false, false⟩,
          ⟨8192, 8192, 8192, 8192, 0, .medium, false, false⟩],
         [none, none, none], 0, [], 0⟩).2.zone? 0).map Zone.lifetime =
      some .shortHint ∧
    WriteLifeTimeHint.medium ≠ WriteLifeTimeHint.shortHint := by decide

/-- C7 (amended): the empty-zone fallback of the allocator assigns the
file's lifetime to every closed Empty data-pool zone it scans — not
only to the selected one — leaves every other zone unchanged, and
selects the last closed Empty zone of the pool. -/
theorem c7_fallback_spec (zones : List Zone) (lt : WriteLifeTimeHint)
    (i : Nat) (w : Zone) (hw : zones[i]? = some w) :
    (emptyZoneScanAux lt zones).1[i]? =
      some (if !w.openForWrite && w.IsEmpty then { w with lifetime := lt }
            else w) ∧
    (∀ j, (emptyZoneScanAux lt zones).2 = some j →
      (∃ v, zones[j]? = some v ∧ (!v.openForWrite && v.IsEmpty) = true) ∧
      ∀ (k : Nat) (v : Zone), j < k → zones[k]? = some v →
        (!v.openForWrite && v.IsEmpty) = false) := by
  exact ⟨emptyZoneScanAux_get? lt zones i w hw,
         fun j hj => emptyZoneScanAux_sel_some lt zones j hj⟩

/-- Witness for C7 (amended): a closed Empty zone gets the file's
lifetime, a non-Empty zone keeps its own. -/
theorem c7_fallback_spec_witness :
    (emptyZoneScanAux .shortHint
        [⟨0, 8192, 8192, 0, 0, .medium, false, false⟩,
         ⟨8192, 8192, 4096, 12288, 0, .long, false, false⟩]).1[1]? =
      some ⟨8192, 8192, 4096, 12288, 0, .long, false, false⟩ := by
  have h := (c7_fallback_spec
    [⟨0, 8192, 8192, 0, 0, .medium, false, false⟩,
     ⟨8192, 8192, 4096, 12288, 0, .long, false, false⟩] .shortHint 1
    ⟨8192, 8192, 4096, 12288, 0, .long, false, false⟩ (by decide)).1
  simpa using h


/-- C3 (failing input): an 8192-byte append to a file whose active
zone 0 has 4096 bytes of capacity left, with zone 0 occupying slot 2 —
the configuration every `ZoneFile::Append` allocation produces, since
both its `AllocateZone(lifetime_)` calls are non-WAL and `GetActiveZone`
therefore installs the active zone in a slot of index >= 2.  Because the
call drops the `full_zone` argument, after the pending extent is pushed
and the zone closed via `CloseWR`, the allocator's reuse path finds the
just-full zone in its slot — not under background processing, not open
for write, with no fullness check — reopens it and returns it as the
next active zone.  The roll step is then an exact fixed point of the
file and device state, so `ZoneFile::Append` closes and reopens the same
full zone forever: even a budget of 100 loop iterations is exhausted,
the job queue stays empty and `bg_processing` stays false, where the
claim requires a background Finish to be enqueued on the zone. -/
theorem c3_missing_full_zone_livelock :
    ZoneFile.Append ⟨4096, [], some 0, 0, 0, .shortHint⟩
      ⟨[⟨0, 8192, 4096, 4096, 0, .shortHint, true, false⟩,
        ⟨8192, 8192, 8192, 8192, 0, .notSet, false, false⟩],
       [none, none, some 0], 1, [], 0⟩ 8192 8192 100 =
    (.fuelOut, ⟨8192, [⟨0, 8192, 0⟩], some 0, 8192, 8192, .shortHint⟩,
     ⟨[⟨0, 8192, 0, 8192, 8192, .shortHint, true, false⟩,
       ⟨8192, 8192, 8192, 8192, 0, .notSet, false, false⟩],
      [none, none, some 0], 1, [], 0⟩) ∧
    rollActiveZone ⟨8192, [⟨0, 8192, 0⟩], some 0, 8192, 8192, .shortHint⟩
      ⟨[⟨0, 8192, 0, 8192, 8192, .shortHint, true, false⟩,
        ⟨8192, 8192, 8192, 8192, 0, .notSet, false, false⟩],
       [none, none, some 0], 1, [], 0⟩ 0 =
    (true, ⟨8192, [⟨0, 8192, 0⟩], some 0, 8192, 8192, .shortHint⟩,
     ⟨[⟨0, 8192, 0, 8192, 8192, .shortHint, true, false⟩,
       ⟨8192, 8192, 8192, 8192, 0, .notSet, false, false⟩],
      [none, none, some 0], 1, [], 0⟩) ∧
    ([] : List BgJob) ≠ [.finish 0] := by decide


end ZenFS
